import Mathlib

/-!
Verification of the Baseline-CLI feature-detection engine.

This file gives a shallow embedding, in Lean 4, of the parts of the
Baseline-CLI TypeScript sources that the verified claims are about:

* the key-pattern generator (`generatePatterns` in `src/utils/index.ts`),
* the compat-features index build (`getCompatFeaturesIndex`),
* the status lookup (`checkBaselineStatus`) and result conversion
  (`convertToFeatureResult` in `src/utils/parsers.ts`),
* the configuration rule application (`applyConfigRules`,
  `applyTargetBaseline` in `src/commands/check.ts`) and the per-file
  check loop of the `check` command,
* the `WebFeaturesMapper` class of `src/utils/web-features-mapper.ts`
  (its eight mapping query functions, its enhanced-mapping table and its
  initialization flag), and
* the process-wide singleton factory `getWebFeaturesMapper`, modelled as
  a small interleaving machine for two concurrent callers.

JavaScript strings are modelled by Lean `String` where only equality and
prefix tests matter, and by `List Char` where character-level scanning is
needed (the regex fragments used by the mapper).  JavaScript `Map` states
whose contents come from the external `web-features` dataset are modelled
as association lists (`List (String × String)`) with `List.lookup`
(JavaScript `Map` keys are unique, so first-match lookup agrees with
`Map.get`); the memoized compat-features index, which the source builds by
repeated `Map.set`, is modelled as a function `String → Option _` updated
with last-write-wins semantics, exactly mirroring `Map.set`.
`console.warn` output is modelled by pairing each query result with the
list of warning messages the call prints.  Thrown exceptions are modelled
with `Except`.
-/

/-! ## Character-level string helpers

JavaScript's `\w` is `[A-Za-z0-9_]` and `\s` is whitespace; the tokens fed
to the mapper are ASCII identifiers, so the ASCII classifiers below match
the regex behaviour on all inputs the program produces.
-/

/-- JavaScript regex `\w` character class (`[A-Za-z0-9_]`). -/
def isWordChar (c : Char) : Bool :=
  c.isAlphanum || c = '_'

/-- JavaScript regex `\s` character class, restricted to ASCII whitespace. -/
def isSpaceChar (c : Char) : Bool :=
  c = ' ' || c = '\t' || c = '\n' || c = '\r' || c = '\x0b' || c = '\x0c'

/-- `pat` occurs as a contiguous substring of `s` (JavaScript
`String.prototype.includes` / an unanchored literal regex test). -/
def containsSub (pat : List Char) : List Char → Bool
  | [] => pat.isEmpty
  | c :: rest => pat.isPrefixOf (c :: rest) || containsSub pat rest

/-- Worker for `replaceAll`, structurally recursive on a fuel argument
so that the kernel can evaluate it; the fuel is an upper bound on the
length of the remaining input (each step consumes at least one input
character because the pattern `p0 :: ps` is nonempty). -/
def replaceAllAux (p0 : Char) (ps : List Char) (rep : List Char) :
    Nat → List Char → List Char
  | 0, l => l
  | _ + 1, [] => []
  | fuel + 1, c :: rest =>
    if (p0 :: ps).isPrefixOf (c :: rest) then
      rep ++ replaceAllAux p0 ps rep fuel (rest.drop ps.length)
    else
      c :: replaceAllAux p0 ps rep fuel rest

/-- Replace every non-overlapping occurrence of the nonempty pattern
`p0 :: ps` by `rep`, scanning left to right: the behaviour of
`String.prototype.replace` with a global literal regex.  (The generator's
patterns are `"$\x7b" ++ key ++ "\x7d"`, hence never empty; replacement
values are spliced literally, as they are for the identifier keys and
values the callers pass.) -/
def replaceAll (p0 : Char) (ps : List Char) (rep : List Char) (l : List Char) : List Char :=
  replaceAllAux p0 ps rep l.length l

/-! ## Key-Pattern Generator (`generatePatterns`, `src/utils/index.ts`) -/

/-- The literal two-character sequence a template placeholder starts with. -/
def dollarBrace : List Char := ['$', '\x7b']

/-- The literal text `undefined`. -/
def undefinedText : List Char := "undefined".toList

/-- Substitute one placeholder: `pattern.replace(new RegExp("\\$\\\x7b" ++ key ++ "\\\x7d", "g"), value)`. -/
def substPlaceholder (pat : List Char) (key : List Char) (value : List Char) : List Char :=
  replaceAll '$' ('\x7b' :: (key ++ ['\x7d'])) value pat

/-- `generatePatterns` from `src/utils/index.ts`: map every template
through every substitution in order, then drop any result still
containing `$\x7b` or the literal text `undefined`. -/
def generatePatterns (templates : List (List Char))
    (replacements : List (List Char × List Char)) : List (List Char) :=
  (templates.map (fun template =>
    replacements.foldl (fun pat kv => substPlaceholder pat kv.1 kv.2) template)).filter
    (fun pat => !containsSub dollarBrace pat && !containsSub undefinedText pat)

/-! ## Feature Dataset Index (`getCompatFeaturesIndex`, `src/utils/index.ts`)

The `web-features` dataset is an external collaborator; the index build is
modelled as a function of an arbitrary dataset, given as the list of
`Object.entries(features)` in iteration order.
-/

/-- The `BaselineStatus` union type `"high" | "low" | false`. -/
inductive BaselineStatus where
  | high
  | low
  | notBaseline
  deriving DecidableEq, Repr

/-- One value of `Object.entries(features)`.  `baseline = none` models a
feature without a `status` field or with `status.baseline` undefined (all
such entries are skipped by the same falsy test that skips
`baseline: false` entries); `name = none` models a missing or falsy
`name`.  `compat = none` models a missing or non-array `compat_features`. -/
structure FeatureData where
  name : Option String
  baseline : Option BaselineStatus
  compat : Option (List String)

/-- The record stored in the compat-features index. -/
structure IndexRecord where
  status : BaselineStatus
  featureName : String
  featureId : String
  deriving DecidableEq, Repr

/-- JavaScript truthiness of `featureData.status?.baseline`:
`"high"` and `"low"` are truthy, `false` and `undefined` are falsy. -/
def truthyStatus : Option BaselineStatus → Bool
  | some .high => true
  | some .low => true
  | _ => false

/-- The status value stored when the truthy test passed. -/
def statusValue : Option BaselineStatus → BaselineStatus
  | some b => b
  | none => .notBaseline

/-- `featureData.name || featureId` (the empty string is falsy). -/
def featureNameOf (featureId : String) (f : FeatureData) : String :=
  match f.name with
  | some n => if n = "" then featureId else n
  | none => featureId

/-- The record an entry writes for all of its keys. -/
def recordOf (featureId : String) (f : FeatureData) : IndexRecord :=
  ⟨statusValue f.baseline, featureNameOf featureId f, featureId⟩

/-- The keys an entry writes, in write order: the feature id itself, then
its `compat_features` list. -/
def entryWrites (featureId : String) (f : FeatureData) : List String :=
  featureId :: (match f.compat with | some l => l | none => [])

/-- `Map.set`: point update with last-write-wins semantics. -/
def mapSet (m : String → Option IndexRecord) (k : String) (v : IndexRecord) :
    String → Option IndexRecord :=
  fun x => if x = k then some v else m x

/-- Process one `Object.entries` pair: skipped unless
`featureData.status?.baseline` is truthy, otherwise all of its keys are
written with the entry's record. -/
def applyEntry (m : String → Option IndexRecord) (e : String × FeatureData) :
    String → Option IndexRecord :=
  if truthyStatus e.2.baseline then
    (entryWrites e.1 e.2).foldl (fun m' k => mapSet m' k (recordOf e.1 e.2)) m
  else m

/-- `getCompatFeaturesIndex` (the body of the one-time build, as a
function of the dataset): fold every entry into an initially empty map. -/
def getCompatFeaturesIndex (ds : List (String × FeatureData)) :
    String → Option IndexRecord :=
  ds.foldl applyEntry (fun _ => none)

/-! ## Result Classifier
(`checkBaselineStatus` in `src/utils/index.ts`;
`convertToFeatureResult` in `src/utils/parsers.ts`) -/

/-- `checkBaselineStatus`: direct index lookup; a miss is `false`. -/
def checkBaselineStatus (idx : String → Option IndexRecord) (featureIdOrCompat : String) :
    BaselineStatus :=
  match idx featureIdOrCompat with
  | some r => r.status
  | none => .notBaseline

/-- Severity union `"error" | "warn" | "info"`. -/
inductive Severity where
  | error
  | warn
  | info
  deriving DecidableEq, Repr

/-- A `DetectedFeature` as emitted by the walkers (the fields the
classifier reads). -/
structure DetectedFeature where
  name : String
  line : Nat
  column : Nat
  context : String
  deriving DecidableEq, Repr

/-- A `FeatureResult`. -/
structure FeatureResult where
  feature : String
  status : BaselineStatus
  severity : Severity
  line : Nat
  column : Nat
  message : String
  fixable : Bool
  deriving DecidableEq, Repr

/-- `convertToFeatureResult` from `src/utils/parsers.ts`: look up the
baseline status (`typeof baselineStatus === 'string' ? baselineStatus :
false` keeps `"high"`/`"low"` and maps anything else to `false`), derive
the severity with the nested ternary, and build the result record. -/
def convertToFeatureResult (idx : String → Option IndexRecord)
    (df : DetectedFeature) : FeatureResult :=
  let baselineStatus := checkBaselineStatus idx df.name
  let status : BaselineStatus :=
    match baselineStatus with
    | .high => .high
    | .low => .low
    | .notBaseline => .notBaseline
  let severity : Severity :=
    if status = .notBaseline then .error
    else if status = .low then .warn
    else .info
  { feature := df.name
    status := status
    severity := severity
    line := df.line
    column := df.column
    message := df.context ++ " - " ++ df.name ++ " is " ++
      (if status = .high then "fully baseline"
       else if status = .low then "newly baseline"
       else "not baseline")
    fixable := false }

/-! ## Configuration rules (`applyConfigRules`, `applyTargetBaseline`,
`src/commands/check.ts`) -/

/-- A configured per-feature rule: `"error" | "warn" | "off"`. -/
inductive ConfigRule where
  | ruleError
  | ruleWarn
  | ruleOff
  deriving DecidableEq, Repr

/-- Baseline target: `"high" | "low"`. -/
inductive BaselineTarget where
  | high
  | low
  deriving DecidableEq, Repr

/-- The slice of `BaselineConfig` the classifier consumes:
`config.rules[feature]` lookup and `config.targets.baseline`. -/
structure ConfigSlice where
  rules : String → Option ConfigRule
  targetsBaseline : BaselineTarget

/-- `applyConfigRules`: map each feature through its configured rule
(`off` maps to `null`, `error`/`warn` force the severity, no rule keeps
the feature), then filter the `null`s out. -/
def applyConfigRules (features : List FeatureResult) (config : ConfigSlice) :
    List FeatureResult :=
  (features.map (fun feature =>
    match config.rules feature.feature with
    | some .ruleOff => none
    | some .ruleError => some { feature with severity := .error }
    | some .ruleWarn => some { feature with severity := .warn }
    | none => some feature)).reduceOption

/-- `applyTargetBaseline`: when the target is `"low"`, demote
`status = "low" && severity = "warn"` results to `"info"`. -/
def applyTargetBaseline (features : List FeatureResult) (targetBaseline : BaselineTarget) :
    List FeatureResult :=
  match targetBaseline with
  | .low => features.map (fun feature =>
      if feature.status = .low ∧ feature.severity = .warn then
        { feature with severity := .info }
      else feature)
  | .high => features

/-! ## Feature Mapper (`WebFeaturesMapper`, `src/utils/web-features-mapper.ts`)

The mapper object's state is the `initialized` flag, the seven name maps
built from the external dataset, and the enhanced-mapping table.  Regex
patterns stored in enhanced-mapping entries are modelled as boolean tests
on strings (`RegExp.prototype.test`); the concrete patterns installed by
`buildEnhancedMappings` are given below as `builtEnhancedMappings`.
-/

/-- The `confidence` field of an enhanced mapping. -/
inductive Confidence where
  | high
  | medium
  | low
  deriving DecidableEq, Repr

/-- An `EnhancedMapping` entry: feature id, confidence and an optional
regex, the regex modelled by its `test` function. -/
structure EnhancedEntry where
  compatFeature : String
  confidence : Confidence
  pattern : Option (String → Bool)

/-- The mutable state of a `WebFeaturesMapper` instance. -/
structure MapperState where
  initialized : Bool
  cssProperties : List (String × String)
  cssSelectors : List (String × String)
  cssAtRules : List (String × String)
  jsAPIs : List (String × String)
  jsConstructors : List (String × String)
  htmlElements : List (String × String)
  htmlAttributes : List (String × String)
  enhanced : List (String × List EnhancedEntry)

/-- ASCII lowercasing, the behaviour of `toLowerCase` on the identifier
tokens the walkers produce (character-by-character map over the string's
characters). -/
def lowerStr (s : String) : String :=
  ⟨s.data.map Char.toLower⟩

/-- `findEnhancedJSMapping`'s inner loop over the entry list of one key:
first entry whose pattern tests true wins. -/
def findInEntries : List EnhancedEntry → String → Option String
  | [], _ => none
  | e :: es, code =>
    match e.pattern with
    | some pat => if pat code then some e.compatFeature else findInEntries es code
    | none => findInEntries es code

/-- `findEnhancedJSMapping`: iterate the enhanced table in insertion
order; the first pattern match wins. -/
def findEnhancedJSMapping : List (String × List EnhancedEntry) → String → Option String
  | [], _ => none
  | (_, ms) :: rest, code =>
    match findInEntries ms code with
    | some r => some r
    | none => findEnhancedJSMapping rest code

/-! ### The regex fragments used by the mapper's query functions -/

/-- Ends, in increasing order, of the prefixes of `l` matched by the
regex fragment `\w+(?:\.\w+)*`: every nonempty prefix of the first word
run, then dot-extended chains.  The JavaScript engine's greedy
backtracking tries exactly these ends, longest first (shrinking a word
run strands a following character that is neither `.` at a segment
boundary nor part of a shorter viable chain), so taking the largest
viable end below reproduces `String.prototype.match` behaviour.
(Structurally recursive on a fuel bound on the input length: each
recursive call strips at least the leading word run and the dot.) -/
def chainEndsAux : Nat → List Char → List Nat
  | 0, _ => []
  | fuel + 1, l =>
    let w := l.takeWhile isWordChar
    if w.length = 0 then []
    else
      let base := (List.range w.length).map (· + 1)
      match l.drop w.length with
      | '.' :: rest2 => base ++ (chainEndsAux fuel rest2).map (fun k => w.length + 1 + k)
      | _ => base

/-- Ends of the `\w+(?:\.\w+)*` prefixes of `l`, via `chainEndsAux`. -/
def chainEnds (l : List Char) : List Nat :=
  chainEndsAux l.length l

/-- Does a group ending at `k` lead to a full match, i.e. is the next
non-whitespace character after position `k` an opening parenthesis
(the `\s*\(` tail of the regex)? -/
def goodEnd (l : List Char) (k : Nat) : Bool :=
  match (l.drop k).dropWhile isSpaceChar with
  | '(' :: _ => true
  | _ => false

/-- Try to match `(\w+(?:\.\w+)*)\s*\(` with the group starting exactly
at the head of `l`: the longest viable chain end wins. -/
def extractAt (l : List Char) : Option (List Char) :=
  match ((chainEnds l).filter (goodEnd l)).getLast? with
  | some k => some (l.take k)
  | none => none

/-- `methodCall.match(/(\w+(?:\.\w+)*)\s*\(/)`: leftmost match, returning
the captured dotted path. -/
def extractMethodPath : List Char → Option (List Char)
  | [] => none
  | c :: rest =>
    match extractAt (c :: rest) with
    | some g => some g
    | none => extractMethodPath rest

/-- `constructor.match(/new\s+(\w+)/)`: leftmost occurrence of the
literal `new` followed by at least one whitespace character and a word
run, returning the word run.  (`\s+` and `\w+` are both greedy and their
character classes are disjoint, so no backtracking arises.) -/
def extractCtorName : List Char → Option (List Char)
  | [] => none
  | c :: rest =>
    let l := c :: rest
    if ('n' :: 'e' :: 'w' :: []).isPrefixOf l then
      let afterNew := l.drop 3
      let spaces := afterNew.takeWhile isSpaceChar
      let afterSpaces := afterNew.dropWhile isSpaceChar
      let word := afterSpaces.takeWhile isWordChar
      if spaces.length > 0 ∧ word.length > 0 then some word
      else extractCtorName rest
    else extractCtorName rest

/-! ### The eight mapping query functions

Each returns its result paired with the list of warning messages the
call prints via `console.warn` (empty when nothing is logged).
-/

/-- Drop the first `n` characters of a string (these property names are
ASCII, where this is `String.drop`). -/
def strDrop (s : String) (n : Nat) : String :=
  ⟨s.data.drop n⟩

/-- `p` is a prefix of `s`, character-level (`String.startsWith`). -/
def strIsPrefixOf (p s : String) : Bool :=
  p.data.isPrefixOf s.data

/-- Strip one leading vendor prefix: `property.replace` with the
anchored regex `^-(?:webkit|moz|ms|o)-` and the empty replacement.  The
alternatives are tried in the regex's order; at most one can match. -/
def stripVendorPrefix (property : String) : String :=
  if strIsPrefixOf "-webkit-" property then strDrop property 8
  else if strIsPrefixOf "-moz-" property then strDrop property 5
  else if strIsPrefixOf "-ms-" property then strDrop property 4
  else if strIsPrefixOf "-o-" property then strDrop property 3
  else property

/-- The anchored vendor-prefix regex tests positively. -/
def hasVendorPrefix (property : String) : Bool :=
  strIsPrefixOf "-webkit-" property || strIsPrefixOf "-moz-" property ||
  strIsPrefixOf "-ms-" property || strIsPrefixOf "-o-" property

/-- `mapCSSProperty`: warn and bail when uninitialized; direct lookup,
then vendor-prefix-stripped retry. -/
def mapCSSProperty (st : MapperState) (property : String) :
    Option String × List String :=
  if !st.initialized then
    (none, ["WebFeaturesMapper not initialized"])
  else
    match List.lookup property st.cssProperties with
    | some directMatch => (some directMatch, [])
    | none =>
      let unprefixed := stripVendorPrefix property
      (List.lookup unprefixed st.cssProperties, [])

/-- Remove duplicates keeping first occurrences:
`[...new Set(features)]`. -/
def jsSetDedup (seen : List String) : List String → List String
  | [] => []
  | x :: xs =>
    if seen.contains x then jsSetDedup seen xs
    else x :: jsSetDedup (x :: seen) xs

/-- The pattern-scan part of `mapCSSSelector`: push the feature of every
enhanced entry whose pattern tests positively on the selector. -/
def collectSelectorFeatures (enh : List (String × List EnhancedEntry))
    (selector : String) : List String :=
  enh.foldl (fun acc kv =>
    acc ++ kv.2.filterMap (fun m =>
      match m.pattern with
      | some pat => if pat selector then some m.compatFeature else none
      | none => none)) []

/-- `mapCSSSelector`: empty when uninitialized; collect enhanced pattern
matches, append the direct selector-index match, deduplicate. -/
def mapCSSSelector (st : MapperState) (selector : String) :
    List String × List String :=
  if !st.initialized then ([], [])
  else
    let features := collectSelectorFeatures st.enhanced selector
    let features2 :=
      match List.lookup selector st.cssSelectors with
      | some directMatch => features ++ [directMatch]
      | none => features
    (jsSetDedup [] features2, [])

/-- `mapCSSAtRule`: null when uninitialized; the enhanced table is
consulted FIRST (key `"@" ++ atRule`), the direct at-rule index only on
an enhanced miss. -/
def mapCSSAtRule (st : MapperState) (atRule : String) :
    Option String × List String :=
  if !st.initialized then (none, [])
  else
    match List.lookup ("@" ++ atRule) st.enhanced with
    | some (e :: _) => (some e.compatFeature, [])
    | _ => (List.lookup atRule st.cssAtRules, [])

/-- `mapJSProperty`: direct lowercase lookup, then the enhanced table. -/
def mapJSProperty (st : MapperState) (propertyAccess : String) :
    Option String × List String :=
  if !st.initialized then (none, [])
  else
    match List.lookup (lowerStr propertyAccess) st.jsAPIs with
    | some directMatch => (some directMatch, [])
    | none => (findEnhancedJSMapping st.enhanced propertyAccess, [])

/-- `mapJSMethod`: extract the dotted callee path, try the direct
lowercase lookup, then the enhanced table. -/
def mapJSMethod (st : MapperState) (methodCall : String) :
    Option String × List String :=
  if !st.initialized then (none, [])
  else
    let direct :=
      match extractMethodPath methodCall.data with
      | some path => List.lookup (lowerStr (String.mk path)) st.jsAPIs
      | none => none
    match direct with
    | some directMatch => (some directMatch, [])
    | none => (findEnhancedJSMapping st.enhanced methodCall, [])

/-- `mapJSConstructor`: extract the constructor name after `new`, try
the direct constructor lookup, then the enhanced table. -/
def mapJSConstructor (st : MapperState) (constructor : String) :
    Option String × List String :=
  if !st.initialized then (none, [])
  else
    let direct :=
      match extractCtorName constructor.data with
      | some name => List.lookup (String.mk name) st.jsConstructors
      | none => none
    match direct with
    | some directMatch => (some directMatch, [])
    | none => (findEnhancedJSMapping st.enhanced constructor, [])

/-- `mapHTMLElement`: direct lowercase lookup, then the enhanced table
under key `"<" ++ element`. -/
def mapHTMLElement (st : MapperState) (element : String) :
    Option String × List String :=
  if !st.initialized then (none, [])
  else
    match List.lookup (lowerStr element) st.htmlElements with
    | some directMatch => (some directMatch, [])
    | none =>
      match List.lookup ("<" ++ lowerStr element) st.enhanced with
      | some (e :: _) => (some e.compatFeature, [])
      | _ => (none, [])

/-- `mapHTMLAttribute`: direct lowercase lookup only. -/
def mapHTMLAttribute (st : MapperState) (attrName : String) :
    Option String × List String :=
  if !st.initialized then (none, [])
  else (List.lookup (lowerStr attrName) st.htmlAttributes, [])

/-! ### The concrete enhanced-mapping table (`buildEnhancedMappings`)

The eight entries installed by `buildEnhancedMappings`, in insertion
order, with each stored regex realized as its `test` function.
-/

/-- Unanchored literal substring test (e.g. the regex `::backdrop`). -/
def testContains (lit : String) (s : String) : Bool :=
  containsSub lit.toList s.toList

/-- Test for `new` + whitespace + a literal constructor name, the shape
of the regex `new` `\s+` `Name`. -/
def testNewCtor (name : String) : String → Bool :=
  let check : List Char → Bool := fun l =>
    ('n' :: 'e' :: 'w' :: []).isPrefixOf l &&
    (let afterNew := l.drop 3
     let spaces := afterNew.takeWhile isSpaceChar
     decide (spaces.length > 0) && name.toList.isPrefixOf (afterNew.dropWhile isSpaceChar))
  fun s =>
    let rec scan : List Char → Bool
      | [] => check []
      | c :: rest => check (c :: rest) || scan rest
    scan s.toList

/-- Test for the regex `fetch` `\s*` `\(`: the literal `fetch`, optional
whitespace, an opening parenthesis. -/
def testFetchCall (s : String) : Bool :=
  let check : List Char → Bool := fun l =>
    "fetch".toList.isPrefixOf l &&
    (match (l.drop 5).dropWhile isSpaceChar with
     | '(' :: _ => true
     | _ => false)
  let rec scan : List Char → Bool
    | [] => check []
    | c :: rest => check (c :: rest) || scan rest
  scan s.toList

/-- Case-insensitive literal substring test (the `i` flag on `<dialog`
and `<details`). -/
def testContainsCI (lit : String) (s : String) : Bool :=
  containsSub (lowerStr lit).toList (lowerStr s).toList

/-- The table `buildEnhancedMappings` installs. -/
def builtEnhancedMappings : List (String × List EnhancedEntry) :=
  [ (":has(", [⟨"css-has", .high, some (testContains ":has(")⟩])
  , ("::backdrop", [⟨"dialog", .high, some (testContains "::backdrop")⟩])
  , ("@container", [⟨"css-container-queries", .high, some (testContains "@container")⟩])
  , ("IntersectionObserver",
      [⟨"intersectionobserver", .high, some (testNewCtor "IntersectionObserver")⟩])
  , ("ResizeObserver", [⟨"resizeobserver", .high, some (testNewCtor "ResizeObserver")⟩])
  , ("fetch(", [⟨"fetch", .high, some testFetchCall⟩])
  , ("<dialog", [⟨"dialog", .high, some (testContainsCI "<dialog")⟩])
  , ("<details", [⟨"details", .high, some (testContainsCI "<details")⟩])
  ]

/-! ## The check command's per-file loop (`src/commands/check.ts`)

`parseFile` (from `src/utils/parsers.ts`) throws `FileSystemError` when
the file does not exist, `FileSizeError` when it exceeds the 10 MiB
maximum, and `ParsingError` when the parser itself fails; otherwise it
returns the detected features converted to `FeatureResult`s.  The file
system, the parser and the dataset are external, so a file is modelled by
its observable behaviour: presence, size, and the feature list (or parse
failure) parsing it would produce.  The `for` loop of
`checkCommand.execute` has no per-file `try`, so a thrown error
propagates out of the loop; the `Except` monad models that propagation.
-/

/-- The `BaselineError` subclasses `parseFile` can throw. -/
inductive CheckError where
  | fileSystemError (filePath : String)
  | fileSizeError (filePath : String) (fileSize maxSize : Nat)
  | parsingError (filePath : String) (message : String)
  deriving DecidableEq, Repr

/-- `MAX_FILE_SIZE = 10 * 1024 * 1024`. -/
def MAX_FILE_SIZE : Nat := 10 * 1024 * 1024

/-- A file as the check loop observes it. -/
structure FileModel where
  path : String
  present : Bool
  size : Nat
  parseOutcome : Except String (List FeatureResult)

/-- `parseFile` / `parseCSS`-`parseJS`-`parseHTML` (all three share the
same guard structure): missing file and oversized file are rejected, in
that order, before any parse is attempted; a parser failure is rethrown
as a `ParsingError`. -/
def parseFileM (f : FileModel) : Except CheckError (List FeatureResult) :=
  if !f.present then .error (.fileSystemError f.path)
  else if f.size > MAX_FILE_SIZE then .error (.fileSizeError f.path f.size MAX_FILE_SIZE)
  else
    match f.parseOutcome with
    | .ok features => .ok features
    | .error msg => .error (.parsingError f.path msg)

/-- The per-file record pushed onto `results`. -/
structure BaselineResult where
  file : String
  features : List FeatureResult
  errors : Nat
  warnings : Nat
  passed : Bool
  deriving DecidableEq, Repr

/-- One iteration of the check loop's body for one file: parse, apply
config rules, apply the target baseline, count severities. -/
def processFile (config : ConfigSlice) (strict : Bool) (f : FileModel) :
    Except CheckError BaselineResult := do
  let features0 ← parseFileM f
  let features1 := applyConfigRules features0 config
  let features := applyTargetBaseline features1 config.targetsBaseline
  let errors := (features.filter (fun r => r.severity = .error)).length
  let warnings := (features.filter (fun r => r.severity = .warn)).length
  return { file := f.path
           features := features
           errors := errors
           warnings := warnings
           passed := errors = 0 ∧ (if strict then warnings = 0 else True) }

/-- The `for` loop over `filesToCheck`: sequential, with no per-file
catch, so the first thrown error aborts the remaining iterations and
reaches the top-level catch (which prints it and exits 1). -/
def runBatch (config : ConfigSlice) (strict : Bool) :
    List FileModel → Except CheckError (List BaselineResult)
  | [] => .ok []
  | f :: fs =>
    match processFile config strict f with
    | .error e => .error e
    | .ok r =>
      match runBatch config strict fs with
      | .error e => .error e
      | .ok rs => .ok (r :: rs)

/-! ## The singleton factory (`getWebFeaturesMapper`)

```
let mapperInstance = null;
async function getWebFeaturesMapper() {
  if (!mapperInstance) {
    mapperInstance = new WebFeaturesMapper();
    await mapperInstance.initialize();
  }
  return mapperInstance;
}
```

Two concurrent callers are modelled as tasks of a cooperative
interleaving machine.  The shared state holds the `initialized` flag of
the (single) mapper object `mapperInstance` points to, or `none` while
`mapperInstance` is still `null`.  A task at `start` runs the code up to
the first suspension point: either it finds `mapperInstance` set and
returns it immediately (recording the flag value it hands its caller),
or it allocates the instance (flag `false`) and suspends inside
`initialize()`.  A task at `initing` resumes after the awaited table
builds, sets the flag to `true` and returns.  `initCount` counts
completed initializations.
-/

/-- Program counter of one caller of `getWebFeaturesMapper`. -/
inductive FactoryPC where
  | start
  | initing
  | done
  deriving DecidableEq, Repr

/-- One caller: its program counter and, once returned, the
`initialized` flag of the mapper it received. -/
structure FactoryTask where
  pc : FactoryPC
  ret : Option Bool
  deriving DecidableEq, Repr

/-- The global state: the mapper's flag (none while `mapperInstance` is
null), the two callers, and the number of completed initializations. -/
structure FactoryState where
  instFlag : Option Bool
  taskA : FactoryTask
  taskB : FactoryTask
  initCount : Nat
  deriving DecidableEq, Repr

/-- Caller identity. -/
inductive CallerId where
  | A
  | B
  deriving DecidableEq, Repr

/-- Advance one task by one scheduler slice. -/
def taskStep (instFlag : Option Bool) (t : FactoryTask) (initCount : Nat) :
    Option Bool × FactoryTask × Nat :=
  match t.pc with
  | .start =>
    match instFlag with
    | none => (some false, { t with pc := .initing }, initCount)
    | some b => (some b, { pc := .done, ret := some b }, initCount)
  | .initing => (some true, { pc := .done, ret := some true }, initCount + 1)
  | .done => (instFlag, t, initCount)

/-- Run the selected caller for one slice. -/
def factoryStep (s : FactoryState) (who : CallerId) : FactoryState :=
  match who with
  | .A =>
    let (fl, t, c) := taskStep s.instFlag s.taskA s.initCount
    { s with instFlag := fl, taskA := t, initCount := c }
  | .B =>
    let (fl, t, c) := taskStep s.instFlag s.taskB s.initCount
    { s with instFlag := fl, taskB := t, initCount := c }

/-- Run a whole schedule. -/
def factoryRun (s : FactoryState) (schedule : List CallerId) : FactoryState :=
  schedule.foldl factoryStep s

/-- Fresh process state: `mapperInstance = null`, both callers pending. -/
def factoryInit : FactoryState :=
  ⟨none, ⟨.start, none⟩, ⟨.start, none⟩, 0⟩

/-! ## Concrete states used by the witnesses and counterexamples -/

/-- An initialized mapper state over a small dataset: the direct at-rule
index has an entry for `container` (a dataset feature listing the compat
key `css.at-rules.container` under the id `at-rule-direct` produces it),
the JS API map knows `fetch`, and the enhanced table is the one
`buildEnhancedMappings` installs. -/
def c1State : MapperState :=
  { initialized := true
    cssProperties := []
    cssSelectors := []
    cssAtRules := [("container", "at-rule-direct")]
    jsAPIs := [("fetch", "fetch-feat")]
    jsConstructors := []
    htmlElements := []
    htmlAttributes := []
    enhanced := builtEnhancedMappings }

/-- An initialized mapper whose property index holds `backdrop-filter`
but not its `-webkit-` prefixed form. -/
def c2State : MapperState :=
  { initialized := true
    cssProperties := [("backdrop-filter", "backdrop-filter")]
    cssSelectors := []
    cssAtRules := []
    jsAPIs := []
    jsConstructors := []
    htmlElements := []
    htmlAttributes := []
    enhanced := builtEnhancedMappings }

/-- An initialized mapper whose property index holds the bare name `x`
only (a dataset listing the compat key `css.properties.x` produces it). -/
def c2CEState : MapperState :=
  { initialized := true
    cssProperties := [("x", "f")]
    cssSelectors := []
    cssAtRules := []
    jsAPIs := []
    jsConstructors := []
    htmlElements := []
    htmlAttributes := []
    enhanced := builtEnhancedMappings }

/-- A mapper that has not been initialized (fresh `new
WebFeaturesMapper()` before `initialize()` ran). -/
def c7State : MapperState :=
  { initialized := false
    cssProperties := []
    cssSelectors := []
    cssAtRules := []
    jsAPIs := []
    jsConstructors := []
    htmlElements := []
    htmlAttributes := []
    enhanced := [] }

/-- A one-entry dataset whose only feature has the defined baseline
status `false` and one compat key. -/
def c4Dataset : List (String × FeatureData) :=
  [("f", ⟨none, some .notBaseline, some ["css.properties.x"]⟩)]

/-- A three-entry dataset exercising collisions: the key `kk` is written
by the first and the second entry; the third writes only `k3`. -/
def c4Pre : List (String × FeatureData) :=
  [("a", ⟨some "A", some .high, some ["k1", "kk"]⟩)]

/-- The middle (last-writing-`kk`) entry of the collision dataset. -/
def c4Entry : String × FeatureData :=
  ("b", ⟨none, some .low, some ["kk", "k2"]⟩)

/-- The suffix of the collision dataset, which never writes `kk`. -/
def c4Post : List (String × FeatureData) :=
  [("c", ⟨some "C", some .high, some ["k3"]⟩)]

/-- A configuration switching `fetch` off and forcing `css-grid` to
`warn`. -/
def c6Config : ConfigSlice :=
  ⟨fun feature =>
    if feature = "fetch" then some .ruleOff
    else if feature = "css-grid" then some .ruleWarn
    else none,
   .high⟩

/-- A detected `fetch` use converted to a result. -/
def c6FetchResult : FeatureResult :=
  ⟨"fetch", .high, .info, 10, 5, "fetch call", false⟩

/-- A detected `css-grid` use converted to a result. -/
def c6GridResult : FeatureResult :=
  ⟨"css-grid", .high, .info, 3, 1, "grid use", false⟩

/-- A configuration with no rules and target `high`. -/
def c8Config : ConfigSlice :=
  ⟨fun _ => none, .high⟩

/-- The feature the well-formed file yields. -/
def c8GoodFeature : FeatureResult :=
  ⟨"css-grid", .high, .info, 3, 1, "display: grid", false⟩

/-- A file that does not exist on disk. -/
def c8BadFile : FileModel :=
  ⟨"missing.css", false, 0, .ok []⟩

/-- A small well-formed file whose parse yields one feature. -/
def c8GoodFile : FileModel :=
  ⟨"style.css", true, 100, .ok [c8GoodFeature]⟩

/-- The at-most-one-initialization invariant of the factory machine: at
most one task is inside `initialize()` or has completed it, and nothing
can have started initializing while `mapperInstance` is still null. -/
def factoryInv (s : FactoryState) : Prop :=
  s.initCount + (if s.taskA.pc = .initing then 1 else 0) +
      (if s.taskB.pc = .initing then 1 else 0) ≤ 1 ∧
  (s.instFlag = none → s.taskA.pc = .start ∧ s.taskB.pc = .start ∧ s.initCount = 0)

/-! ## Helper lemmas -/

theorem jsSetDedup_not_mem_seen (l : List String) :
    ∀ (seen : List String) (x : String), x ∈ jsSetDedup seen l → seen.contains x = false := by
  induction l with
  | nil => intro seen x hx; simp [jsSetDedup] at hx
  | cons y ys ih =>
    intro seen x hx
    unfold jsSetDedup at hx
    by_cases h : seen.contains y
    · rw [if_pos h] at hx
      exact ih seen x hx
    · rw [if_neg h] at hx
      rcases List.mem_cons.mp hx with rfl | hx2
      · simpa using h
      · have h2 := ih (y :: seen) x hx2
        simp only [List.contains_cons, Bool.or_eq_false_iff] at h2
        exact h2.2

theorem jsSetDedup_nodup (l : List String) :
    ∀ seen : List String, (jsSetDedup seen l).Nodup := by
  induction l with
  | nil => intro seen; simp [jsSetDedup]
  | cons y ys ih =>
    intro seen
    unfold jsSetDedup
    by_cases h : seen.contains y
    · rw [if_pos h]; exact ih seen
    · rw [if_neg h]
      refine List.nodup_cons.mpr ⟨fun hy => ?_, ih (y :: seen)⟩
      have := jsSetDedup_not_mem_seen ys (y :: seen) y hy
      simp at this

theorem foldl_mapSet_lookup (ks : List String) (r : IndexRecord) :
    ∀ (m : String → Option IndexRecord) (k : String),
      (ks.foldl (fun m' k' => mapSet m' k' r) m) k = if k ∈ ks then some r else m k := by
  induction ks with
  | nil => intro m k; simp
  | cons a as ih =>
    intro m k
    simp only [List.foldl_cons]
    rw [ih]
    by_cases h1 : k ∈ as
    · simp [h1]
    · by_cases h2 : k = a
      · simp [h1, h2, mapSet]
      · simp [h1, h2, mapSet]

theorem applyEntry_lookup (m : String → Option IndexRecord) (e : String × FeatureData)
    (k : String) :
    applyEntry m e k =
      if truthyStatus e.2.baseline = true ∧ k ∈ entryWrites e.1 e.2 then
        some (recordOf e.1 e.2)
      else m k := by
  unfold applyEntry
  by_cases h : truthyStatus e.2.baseline
  · rw [if_pos h, foldl_mapSet_lookup]
    by_cases hk : k ∈ entryWrites e.1 e.2
    · simp [h, hk]
    · simp [h, hk]
  · simp [h]

theorem foldl_applyEntry_no_write (post : List (String × FeatureData)) :
    ∀ (m : String → Option IndexRecord) (k : String),
      (∀ e' ∈ post, ¬(truthyStatus e'.2.baseline = true ∧ k ∈ entryWrites e'.1 e'.2)) →
      (post.foldl applyEntry m) k = m k := by
  induction post with
  | nil => intro m k _; simp
  | cons e' rest ih =>
    intro m k h
    simp only [List.foldl_cons]
    rw [ih (applyEntry m e') k (fun g hg => h g (List.mem_cons_of_mem e' hg))]
    rw [applyEntry_lookup]
    rw [if_neg (h e' (List.mem_cons_self e' rest))]

/-! ## Claim theorems -/

/-- C3: for every list of templates and every substitution record, every
string returned by `generatePatterns` contains neither the substring
`$\x7b` nor the substring `undefined` — including when a supplied
substitution value itself contains such text, since the filter runs on
the fully substituted strings. -/
theorem c3_generated_keys_filtered (templates : List (List Char))
    (replacements : List (List Char × List Char)) (pat : List Char)
    (hmem : pat ∈ generatePatterns templates replacements) :
    containsSub dollarBrace pat = false ∧ containsSub undefinedText pat = false := by
  unfold generatePatterns at hmem
  have h := (List.mem_filter.mp hmem).2
  simp only [Bool.and_eq_true, Bool.not_eq_true'] at h
  exact h

/-- Witness for C3 at a concrete template and substitution. -/
theorem c3_generated_keys_filtered_witness :
    containsSub dollarBrace ("css.properties.grid").toList = false ∧
    containsSub undefinedText ("css.properties.grid").toList = false :=
  c3_generated_keys_filtered [("css.properties.$\x7bproperty\x7d").toList]
    [(("property").toList, ("grid").toList)] ("css.properties.grid").toList (by decide)

/-- C10: for every mapper state and selector string, the feature-id list
returned by `mapCSSSelector` contains no duplicates, because the source
pipes the collected matches through `new Set` before returning. -/
theorem c10_selector_list_nodup (st : MapperState) (selector : String) :
    ((mapCSSSelector st selector).1).Nodup := by
  unfold mapCSSSelector
  by_cases h : st.initialized
  · simp only [h, Bool.not_true, Bool.false_eq_true, if_false]
    exact jsSetDedup_nodup _ []
  · simp only [Bool.not_eq_true'] at h
    simp [h]

/-- C5: a `FeatureResult` produced by `convertToFeatureResult` (which
applies no configuration rule) carries the status looked up in the
dataset index, and its severity is derived from that status by
`false ↦ error`, `low ↦ warn`, `high ↦ info`; a feature id absent from
the index yields status `false`, hence severity `error`. -/
theorem c5_severity_derivation (idx : String → Option IndexRecord) (df : DetectedFeature) :
    (convertToFeatureResult idx df).status = checkBaselineStatus idx df.name ∧
    ((convertToFeatureResult idx df).status = .notBaseline →
      (convertToFeatureResult idx df).severity = .error) ∧
    ((convertToFeatureResult idx df).status = .low →
      (convertToFeatureResult idx df).severity = .warn) ∧
    ((convertToFeatureResult idx df).status = .high →
      (convertToFeatureResult idx df).severity = .info) ∧
    (idx df.name = none → (convertToFeatureResult idx df).severity = .error) := by
  cases hidx : idx df.name with
  | none =>
    simp [convertToFeatureResult, checkBaselineStatus, hidx]
  | some r =>
    cases hr : r.status <;>
      simp [convertToFeatureResult, checkBaselineStatus, hidx, hr]

/-- Witness for C5: an unknown feature id gets severity `error`. -/
theorem c5_severity_derivation_witness :
    (convertToFeatureResult (fun _ => none) ⟨"unknown-feat", 1, 1, "ctx"⟩).severity =
      .error :=
  (c5_severity_derivation (fun _ => none) ⟨"unknown-feat", 1, 1, "ctx"⟩).2.2.2.2 rfl

/-- C6: a feature whose configured rule is `off` is removed from the
result list by `applyConfigRules` itself — nothing in its output has an
`off` rule, for every input list and configuration. -/
theorem c6_rule_off_removed (features : List FeatureResult) (config : ConfigSlice)
    (g : FeatureResult) (hg : g ∈ applyConfigRules features config) :
    config.rules g.feature ≠ some .ruleOff := by
  unfold applyConfigRules at hg
  rw [List.reduceOption_mem_iff] at hg
  rcases List.mem_map.mp hg with ⟨f, hf, hval⟩
  cases hrule : config.rules f.feature with
  | none =>
    rw [hrule] at hval
    injection hval with h1
    subst h1
    simp [hrule]
  | some rule =>
    cases rule with
    | ruleError =>
      rw [hrule] at hval
      injection hval with h1
      subst h1
      simp [hrule]
    | ruleWarn =>
      rw [hrule] at hval
      injection hval with h1
      subst h1
      simp [hrule]
    | ruleOff =>
      rw [hrule] at hval
      exact absurd hval (by simp)

/-- Witness for C6: with `fetch` switched off, a surviving `css-grid`
result (whose rule forces `warn`) indeed has a non-`off` rule. -/
theorem c6_rule_off_removed_witness :
    c6Config.rules ({ c6GridResult with severity := .warn } : FeatureResult).feature ≠
      some .ruleOff :=
  c6_rule_off_removed [c6FetchResult, c6GridResult] c6Config
    { c6GridResult with severity := .warn } (by decide)

/-- C4 (amended): the claim holds for every entry whose defined baseline
status is truthy (`"high"` or `"low"`) — the built index maps the
entry's own feature id and every listed compat key to that entry's
record, with last-write-wins resolution when a key collides across
entries (stated here for the last truthy entry writing the key) — but
NOT for entries whose defined status is `false`: the build guards the
writes with the truthiness test `if (status)`, which `false` fails, so
such entries are skipped entirely (see the counterexample). -/
theorem c4_index_build_amended (pre : List (String × FeatureData))
    (e : String × FeatureData) (post : List (String × FeatureData)) (k : String)
    (htr : truthyStatus e.2.baseline = true)
    (hk : k ∈ entryWrites e.1 e.2)
    (hpost : ∀ e' ∈ post, ¬(truthyStatus e'.2.baseline = true ∧ k ∈ entryWrites e'.1 e'.2)) :
    getCompatFeaturesIndex (pre ++ e :: post) k = some (recordOf e.1 e.2) := by
  unfold getCompatFeaturesIndex
  rw [List.foldl_append, List.foldl_cons]
  rw [foldl_applyEntry_no_write post _ k hpost]
  rw [applyEntry_lookup]
  rw [if_pos ⟨htr, hk⟩]

/-- Witness for C4 at a concrete colliding dataset: the key `kk` is
written by both the first and the second entry; the second entry wins,
and its record carries its id as display name (its dataset `name` is
absent). -/
theorem c4_index_build_witness :
    getCompatFeaturesIndex (c4Pre ++ c4Entry :: c4Post) "kk" =
      some ⟨.low, "b", "b"⟩ :=
  c4_index_build_amended c4Pre c4Entry c4Post "kk" (by decide) (by decide) (by decide)

/-- C4 counterexample: the claim also asserts coverage of entries whose
defined status is `false`, but a dataset whose only feature has baseline
status `false` produces an index that maps neither the feature's id nor
its compat key — the truthiness guard skips the entry. -/
theorem c4_index_build_counterexample :
    getCompatFeaturesIndex c4Dataset "f" = none ∧
    getCompatFeaturesIndex c4Dataset "css.properties.x" = none := by
  constructor <;> rfl

/-- A name with no vendor prefix is left unchanged by the strip. -/
theorem stripVendorPrefix_fixpoint (q : String) (h : hasVendorPrefix q = false) :
    stripVendorPrefix q = q := by
  unfold hasVendorPrefix at h
  simp only [Bool.or_eq_false_iff] at h
  unfold stripVendorPrefix
  rw [if_neg (by simp [h.1.1.1]), if_neg (by simp [h.1.1.2]),
    if_neg (by simp [h.1.2]), if_neg (by simp [h.2])]

/-- C2 (amended): for every mapper state and property name that carries
a vendor prefix, has no entry of its own in the property index, and
whose once-stripped form does not itself begin with a vendor prefix
(true of every real CSS property, in particular of
`-webkit-backdrop-filter` versus `backdrop-filter`), `mapCSSProperty` on
the prefixed name agrees with `mapCSSProperty` on the unprefixed name.
The extra condition is forced: the regex strips only one prefix, so a
doubly prefixed name misses entries the singly prefixed name would reach
(see the counterexample). -/
theorem c2_vendor_prefix_amended (st : MapperState) (property : String)
    (_hpre : hasVendorPrefix property = true)
    (habsent : List.lookup property st.cssProperties = none)
    (hstripped : hasVendorPrefix (stripVendorPrefix property) = false) :
    mapCSSProperty st property = mapCSSProperty st (stripVendorPrefix property) := by
  unfold mapCSSProperty
  cases hini : st.initialized
  · simp
  · simp only [Bool.not_true, Bool.false_eq_true, if_false]
    rw [habsent]
    cases hq : List.lookup (stripVendorPrefix property) st.cssProperties
    · rw [stripVendorPrefix_fixpoint _ hstripped, hq]
    · rfl

/-- Witness for C2: the spec's concrete pair, over a state whose index
holds `backdrop-filter` but not the `-webkit-` form. -/
theorem c2_vendor_prefix_witness :
    mapCSSProperty c2State "-webkit-backdrop-filter" =
      mapCSSProperty c2State (stripVendorPrefix "-webkit-backdrop-filter") :=
  c2_vendor_prefix_amended c2State "-webkit-backdrop-filter" (by decide) (by decide)
    (by decide)

/-- C2 counterexample: `-webkit--moz-x` carries a `-webkit-` prefix and
has no entry of its own, yet over an index holding the bare name `x`
the prefixed lookup returns nothing while the once-unprefixed name
`-moz-x` (and the fully unprefixed `x`) resolve — the strip is applied
only once, so the universally stated claim fails. -/
theorem c2_vendor_prefix_counterexample :
    hasVendorPrefix "-webkit--moz-x" = true ∧
    List.lookup "-webkit--moz-x" c2CEState.cssProperties = none ∧
    (mapCSSProperty c2CEState "-webkit--moz-x").1 = none ∧
    (mapCSSProperty c2CEState "-moz-x").1 = some "f" ∧
    (mapCSSProperty c2CEState "x").1 = some "f" := by
  refine ⟨by decide, by decide, by decide, by decide, by decide⟩

/-- C7 (amended): a query on an uninitialized mapper returns "no match"
(null, or the empty list for selectors) rather than throwing, for all
eight mapping functions; but only `mapCSSProperty` logs the
"not initialized" warning — the other seven return silently (see the
counterexample). -/
theorem c7_uninitialized_queries_amended (st : MapperState)
    (hinit : st.initialized = false) (p s a q m c el ha : String) :
    mapCSSProperty st p = (none, ["WebFeaturesMapper not initialized"]) ∧
    mapCSSSelector st s = ([], []) ∧
    mapCSSAtRule st a = (none, []) ∧
    mapJSProperty st q = (none, []) ∧
    mapJSMethod st m = (none, []) ∧
    mapJSConstructor st c = (none, []) ∧
    mapHTMLElement st el = (none, []) ∧
    mapHTMLAttribute st ha = (none, []) := by
  unfold mapCSSProperty mapCSSSelector mapCSSAtRule mapJSProperty mapJSMethod
    mapJSConstructor mapHTMLElement mapHTMLAttribute
  simp [hinit]

/-- Witness for C7 at the fresh uninitialized mapper state. -/
theorem c7_uninitialized_queries_witness :
    mapCSSProperty c7State "backdrop-filter" =
      (none, ["WebFeaturesMapper not initialized"]) ∧
    mapCSSAtRule c7State "container" = (none, []) :=
  ⟨(c7_uninitialized_queries_amended c7State rfl "backdrop-filter" ":has(x)" "container"
      "navigator.clipboard" "fetch(x)" "new ResizeObserver(cb)" "dialog" "loading").1,
   (c7_uninitialized_queries_amended c7State rfl "backdrop-filter" ":has(x)" "container"
      "navigator.clipboard" "fetch(x)" "new ResizeObserver(cb)" "dialog" "loading").2.2.1⟩

/-- C7 counterexample: the claim says every uninitialized query logs a
warning, but `mapCSSAtRule` (like all query functions except
`mapCSSProperty`) returns its no-match result with an empty log. -/
theorem c7_uninitialized_queries_counterexample :
    c7State.initialized = false ∧
    mapCSSAtRule c7State "container" = (none, []) ∧
    mapCSSSelector c7State ":has(x)" = ([], []) := by
  refine ⟨rfl, by decide, by decide⟩

/-- C1 (amended): resolution order is direct-before-enhanced for the JS
query functions — shown for `mapJSMethod`: whenever the extracted callee
path has a direct match in the JS API index, that match is returned and
the enhanced table is never consulted — but `mapCSSAtRule` consults the
enhanced table FIRST: whenever the enhanced table has an entry for
`"@" ++ atRule`, its feature id is returned even when a direct at-rule
index match exists (see the counterexample). -/
theorem c1_resolution_order_amended :
    (∀ (st : MapperState) (methodCall : String) (path : List Char) (id : String),
      st.initialized = true →
      extractMethodPath methodCall.data = some path →
      List.lookup (lowerStr (String.mk path)) st.jsAPIs = some id →
      mapJSMethod st methodCall = (some id, [])) ∧
    (∀ (st : MapperState) (atRule : String) (e : EnhancedEntry)
        (rest : List EnhancedEntry),
      st.initialized = true →
      List.lookup ("@" ++ atRule) st.enhanced = some (e :: rest) →
      mapCSSAtRule st atRule = (some e.compatFeature, [])) := by
  constructor
  · intro st methodCall path id hini hpath hlook
    unfold mapJSMethod
    rw [hini]
    simp only [Bool.not_true, Bool.false_eq_true, if_false]
    rw [hpath]
    show (match List.lookup (lowerStr (String.mk path)) st.jsAPIs with
      | some directMatch => (some directMatch, [])
      | none => (findEnhancedJSMapping st.enhanced methodCall, [])) = (some id, [])
    rw [hlook]
  · intro st atRule e rest hini hlook
    unfold mapCSSAtRule
    rw [hini]
    simp only [Bool.not_true, Bool.false_eq_true, if_false]
    rw [hlook]

/-- Witness for C1 at concrete inputs: a direct JS hit for `fetch(x)`
and the enhanced at-rule hit for `container`. -/
theorem c1_resolution_order_witness :
    mapJSMethod c1State "fetch(x)" = (some "fetch-feat", []) ∧
    mapCSSAtRule c1State "container" = (some "css-container-queries", []) :=
  ⟨c1_resolution_order_amended.1 c1State "fetch(x)" ("fetch").data "fetch-feat" rfl
      (by decide) (by decide),
   c1_resolution_order_amended.2 c1State "container"
      ⟨"css-container-queries", .high, some (testContains "@container")⟩ [] rfl rfl⟩

/-- C1 counterexample: over a dataset state whose direct at-rule index
maps `container` to a feature id of its own, `mapCSSAtRule "container"`
returns the enhanced-table id, not the direct match — the direct index
is NOT tried first. -/
theorem c1_resolution_order_counterexample :
    List.lookup "container" c1State.cssAtRules = some "at-rule-direct" ∧
    (List.lookup ("@" ++ "container") c1State.enhanced).isSome = true ∧
    mapCSSAtRule c1State "container" = (some "css-container-queries", []) ∧
    "css-container-queries" ≠ "at-rule-direct" := by
  refine ⟨by decide, rfl, by decide, by decide⟩

/-- C8 (amended): the check loop has no per-file catch, so the first
file whose parse raises an input error (file not found, or size above
the 10 MiB maximum, both raised before any parse attempt) aborts the
whole batch: the error propagates to the top-level catch (which prints
it and exits 1) and the remaining files are NOT processed. -/
theorem c8_batch_abort_amended (config : ConfigSlice) (strict : Bool)
    (pre : List FileModel) (f : FileModel) (post : List FileModel) (e : CheckError)
    (hpre : ∀ g ∈ pre, ∃ r, processFile config strict g = .ok r)
    (hf : processFile config strict f = .error e) :
    runBatch config strict (pre ++ f :: post) = .error e := by
  induction pre with
  | nil =>
    simp only [List.nil_append]
    unfold runBatch
    rw [hf]
  | cons g gs ih =>
    obtain ⟨r, hr⟩ := hpre g (List.mem_cons_self g gs)
    simp only [List.cons_append]
    unfold runBatch
    rw [hr, ih (fun g' hg' => hpre g' (List.mem_cons_of_mem g hg'))]

/-- Witness for C8: one good file followed by a missing file — the run
ends in the missing-file error. -/
theorem c8_batch_abort_witness :
    runBatch c8Config false ([c8GoodFile] ++ c8BadFile :: []) =
      .error (.fileSystemError "missing.css") :=
  c8_batch_abort_amended c8Config false [c8GoodFile] c8BadFile [] _
    (by
      intro g hg
      rw [List.mem_singleton] at hg
      subst hg
      exact ⟨_, rfl⟩)
    rfl

/-- C8 counterexample: with a missing file first and a processable file
second, the batch run is an error — the second file is never processed
(no result list is produced at all), although processing it alone
succeeds.  This refutes "the remaining files in the batch are still
processed". -/
theorem c8_batch_abort_counterexample :
    runBatch c8Config false [c8BadFile, c8GoodFile] =
      .error (.fileSystemError "missing.css") ∧
    (∃ r, processFile c8Config false c8GoodFile = .ok r) := by
  exact ⟨rfl, ⟨_, rfl⟩⟩

theorem factoryStep_preserves_inv (s : FactoryState) (hs : factoryInv s) (who : CallerId) :
    factoryInv (factoryStep s who) := by
  obtain ⟨fl, ⟨pcA, retA⟩, ⟨pcB, retB⟩, cnt⟩ := s
  obtain ⟨hcount, hnull⟩ := hs
  cases who <;> cases pcA <;> cases pcB <;> cases fl <;>
    simp_all [factoryStep, taskStep, factoryInv]

theorem factoryRun_preserves_inv (schedule : List CallerId) :
    ∀ s : FactoryState, factoryInv s → factoryInv (factoryRun s schedule) := by
  induction schedule with
  | nil => intro s hs; exact hs
  | cons w rest ih =>
    intro s hs
    exact ih (factoryStep s w) (factoryStep_preserves_inv s hs w)

/-- C9 (amended): `getWebFeaturesMapper` runs the mapper's
initialization at most once per process under every interleaving of two
concurrent callers; the first caller receives a mapper whose
`initialized` flag is `true`, but a second caller arriving while the
first initialization is still in flight finds `mapperInstance` already
assigned and receives the shared mapper immediately, with `initialized`
still `false` (the factory assigns the singleton before awaiting
`initialize()` and holds no in-flight promise). -/
theorem c9_singleton_amended :
    (∀ schedule : List CallerId, (factoryRun factoryInit schedule).initCount ≤ 1) ∧
    (factoryRun factoryInit [CallerId.A, CallerId.B, CallerId.A]).taskA.ret = some true ∧
    (factoryRun factoryInit [CallerId.A, CallerId.B, CallerId.A]).taskB.ret = some false := by
  refine ⟨?_, by decide, by decide⟩
  intro schedule
  have h := factoryRun_preserves_inv schedule factoryInit (by constructor <;> simp [factoryInit, factoryInv])
  have h1 := h.1
  omega

/-- C9 counterexample: under the schedule where caller B runs while
caller A is suspended inside `initialize()`, B's call completes and
hands back the mapper with `initialized = false`, refuting "every caller
receives a mapper whose initialized flag is true". -/
theorem c9_singleton_counterexample :
    (factoryRun factoryInit [CallerId.A, CallerId.B, CallerId.A]).taskB.pc = .done ∧
    (factoryRun factoryInit [CallerId.A, CallerId.B, CallerId.A]).taskB.ret =
      some false := by
  refine ⟨by decide, by decide⟩

/-- Witness for C10 at a concrete state and selector. -/
theorem c10_selector_list_nodup_witness :
    ((mapCSSSelector c1State ".card:has(img)").1).Nodup :=
  c10_selector_list_nodup c1State ".card:has(img)"

/-- Witness for C9 at a concrete schedule. -/
theorem c9_singleton_witness :
    (factoryRun factoryInit [CallerId.A, CallerId.B, CallerId.A]).initCount ≤ 1 :=
  c9_singleton_amended.1 [CallerId.A, CallerId.B, CallerId.A]
